import Mathlib

/- Verification of the provider-ssh remote script execution engine and its
reconciliation controller, shallowly embedded from the Go sources
internal/client/ssh.go and internal/controller/script/script.go.  External
effects (the network dial, the sftp upload, the remote process, the
known-hosts parser) are inputs supplied by the environment; everything the
repository computes from them is translated directly. -/

/-- Variable is the name/value pair of the v1alpha1 API used by
ReplaceVariables (ssh.go line 192). -/
structure Variable where
  name : String
  value : String
deriving DecidableEq

/-- Decides whether the list p is an initial segment of s. -/
def startsWithL : List Char → List Char → Bool
  | [], _ => true
  | _ :: _, [] => false
  | p :: ps, c :: cs => p == c && startsWithL ps cs

/-- Decides whether pat occurs as a contiguous segment of s. -/
def occursL (pat : List Char) : List Char → Bool
  | [] => startsWithL pat []
  | c :: cs => startsWithL pat (c :: cs) || occursL pat cs

/-- Left-to-right, non-overlapping replacement of every occurrence of pat by
rep: the semantics of Go strings.ReplaceAll for a non-empty pattern.  The
pattern ReplaceVariables passes always starts with a brace, hence the
non-emptiness argument. -/
def replaceAllGo (pat rep : List Char) (hp : pat ≠ []) : List Char → List Char
  | [] => []
  | c :: cs =>
    if startsWithL pat (c :: cs) then
      rep ++ replaceAllGo pat rep hp ((c :: cs).drop pat.length)
    else
      c :: replaceAllGo pat rep hp cs
termination_by s => s.length
decreasing_by
  · simp only [List.length_drop, List.length_cons]
    have hl : 0 < pat.length := List.length_pos.mpr hp
    omega
  · simp

/-- strings.ReplaceAll(s, pat, rep) on Lean strings, in the Go argument
order; for an empty pattern the call never happens in the repository, so
that degenerate case returns the subject unchanged. -/
def replaceAllS (s pat rep : String) : String :=
  if hp : pat.data = [] then s else ⟨replaceAllGo pat.data rep.data hp s.data⟩

/-- The placeholder text for a variable name, as assembled at ssh.go
line 196. -/
def ph (n : String) : String := "\x7b\x7b" ++ n ++ "\x7d\x7d"

/-- ReplaceVariables (ssh.go lines 192-199): sequentially, for each variable
in list order, replace every occurrence of its placeholder by its value. -/
def ReplaceVariables (script : String) (vars : List Variable) : String :=
  vars.foldl (fun sc v => replaceAllS sc (ph v.name) v.value) script

/-- The credential payload decoded from the provider secret (Config,
ssh.go lines 26-33); an absent optional field decodes to the empty
string. -/
structure SSHConfig where
  hostIP : String
  hostPort : String
  username : String
  password : String
  privateKey : String
  knownHosts : String
deriving DecidableEq

/-- Splits a character list at every dot, keeping empty parts; acc holds the
current part reversed. -/
def splitDotAux : List Char → List Char → List (List Char)
  | [], acc => [acc.reverse]
  | c :: cs, acc =>
    if c = '.' then acc.reverse :: splitDotAux cs [] else splitDotAux cs (c :: acc)

/-- isValidIPv4 (ssh.go lines 131-146): the address is accepted when it
matches the anchored dotted-quad expression (exactly four groups of one to
three digits) or the anchored url expression (at least two non-empty
dot-free labels). -/
def isValidIPv4 (inputAddress : String) : Bool :=
  let parts := splitDotAux inputAddress.data []
  let ipv4 := parts.length == 4 &&
    parts.all (fun p => decide (1 ≤ p.length) && decide (p.length ≤ 3) && p.all (fun c => c.isDigit))
  let url := decide (2 ≤ parts.length) && parts.all (fun p => !p.isEmpty)
  ipv4 || url

/-- The authentication method stored into the client configuration
(ssh.go lines 76-97); the public key case carries no password data. -/
inductive AuthMethod
  | publicKeys
  | password (pw : String)
deriving DecidableEq

/-- The validation errors NewSSHClient can return before dialing
(ssh.go lines 48-97); the json unmarshal step is outside the embedding,
its input arrives here already decoded. -/
inductive SetupError
  | noUsername
  | noHost
  | invalidHost
  | knownHostsFailed
  | noAuth
deriving DecidableEq

/-- The parts of the ssh client configuration NewSSHClient fills in before
dialing: the user, the chosen authentication method, whether the insecure
host key callback was installed, and the effective port. -/
structure ClientConfig where
  user : String
  auth : AuthMethod
  insecureHostKey : Bool
  port : String
deriving DecidableEq

/-- The validation and configuration stage of NewSSHClient (ssh.go lines
36-97), up to but not including the dial loop.  khOk tells whether
knownhosts.New succeeds on the supplied material; b64Ok and parseOk tell
whether base64 decoding and private key parsing succeed - the code only
logs those two failures (lines 78-86), so they cannot influence the
result. -/
def newSSHClientSetup (kc : SSHConfig) (khOk b64Ok parseOk : Bool) :
    Except SetupError ClientConfig :=
  if kc.username = "" then .error .noUsername
  else if kc.hostIP = "" then .error .noHost
  else if isValidIPv4 kc.hostIP = false then .error .invalidHost
  else
    let port := if kc.hostPort = "" then "22" else kc.hostPort
    if kc.knownHosts ≠ "" ∧ khOk = false then .error .knownHostsFailed
    else if kc.privateKey ≠ "" then
      .ok ⟨kc.username, .publicKeys, decide (kc.knownHosts = ""), port⟩
    else if kc.password ≠ "" then
      .ok ⟨kc.username, .password kc.password, decide (kc.knownHosts = ""), port⟩
    else .error .noAuth

/-- The result of one ssh.Dial attempt; payloads are abstract identities so
distinct connections and errors can be told apart. -/
inductive DialOutcome
  | conn (c : Nat)
  | failed (e : Nat)
deriving DecidableEq

/-- The dial loop of NewSSHClient (ssh.go lines 99-126) unrolled at its
constant bound maxAttempts = 3: try attempt 1, on failure attempt 2, on
failure attempt 3; the loop keeps the error of the last executed attempt
and breaks on the first success. -/
def dialUpToThree (dial : Nat → DialOutcome) : DialOutcome :=
  match dial 1 with
  | .conn c => .conn c
  | .failed _ =>
    match dial 2 with
    | .conn c => .conn c
    | .failed _ => dial 3

/-- What NewSSHClient as a whole returns: a validation error before any
dial, the final dial error, or a connected client plus the configuration it
was dialed with. -/
inductive NewClientResult
  | configError (e : SetupError)
  | dialError (e : Nat)
  | client (c : Nat) (cfg : ClientConfig)
deriving DecidableEq

/-- NewSSHClient (ssh.go lines 36-129): validate and build the client
configuration, then dial up to three times. -/
def NewSSHClient (kc : SSHConfig) (khOk b64Ok parseOk : Bool)
    (dial : Nat → DialOutcome) : NewClientResult :=
  match newSSHClientSetup kc khOk b64Ok parseOk with
  | .error e => .configError e
  | .ok cfg =>
    match dialUpToThree dial with
    | .conn c => .client c cfg
    | .failed e => .dialError e

/-- An error returned by session.Run, following the x/crypto/ssh contract:
an ExitError carries the exit status of a process that ran and terminated
with nonzero status; any other error means no exit status is available. -/
inductive RunError
  | exitError (code : Nat)
  | execFailure
deriving DecidableEq

/-- session.Run returns no error when the remote process terminates with
status 0 and an ExitError carrying the status otherwise. -/
def runErrOfExit (code : Nat) : Option RunError :=
  if code = 0 then none else some (.exitError code)

/-- The remote-side behaviour one ExecuteScript call encounters: whether the
sftp upload succeeds, whether the command session can be created, what the
remote process writes to each stream, how session.Run ends, and whether the
cleanup command succeeds. -/
structure ExecEnv where
  sendFileOk : Bool
  newSessionOk : Bool
  runStdout : String
  runStderr : String
  runErr : Option RunError
  cleanupOk : Bool
deriving DecidableEq

/-- The error component of an ExecuteScript return (ssh.go lines 211-239):
a wrapped upload failure, a wrapped session creation failure, or the
session.Run error passed through unchanged. -/
inductive ExecError
  | sendFileFailed
  | sessionFailed
  | runFailed (e : RunError)
deriving DecidableEq

/-- What one ExecuteScript call returns and does: the stdout and stderr
strings and error of the call, whether removal of the staged temporary file
was attempted, and the substituted script text handed to the upload. -/
structure ExecOut where
  stdout : String
  stderr : String
  err : Option ExecError
  cleanupAttempted : Bool
  stagedContent : String
deriving DecidableEq

/-- ExecuteScript (ssh.go lines 202-249): substitute the variables, upload
the result, run it, and clean up.  An upload or session failure returns
early with empty output; a session.Run error returns the empty string for
stdout together with the captured stderr and skips cleanup; on a clean run
both captured streams are returned and the temporary file is removed, a
failure of that removal being logged and dropped (lines 242-245). -/
def ExecuteScript (sc : String) (vars : List Variable) (env : ExecEnv) : ExecOut :=
  let content := ReplaceVariables sc vars
  if env.sendFileOk = false then ⟨"", "", some .sendFileFailed, false, content⟩
  else if env.newSessionOk = false then ⟨"", "", some .sessionFailed, false, content⟩
  else
    match env.runErr with
    | some e => ⟨"", env.runStderr, some (.runFailed e), false, content⟩
    | none => ⟨env.runStdout, env.runStderr, none, true, content⟩

/-- The two booleans of managed.ExternalObservation the controller sets. -/
structure ExternalObservation where
  resourceExists : Bool
  resourceUpToDate : Bool
deriving DecidableEq

/-- The status subresource fields Observe writes (Stdout, Stderr,
StatusCode). -/
structure AtProviderStatus where
  stdout : String
  stderr : String
  statusCode : Nat
deriving DecidableEq

/-- Everything one Observe call produces: the observation, whether an error
was returned alongside it, the status fields after the call, and which
condition was set. -/
structure ObserveOutcome where
  obs : ExternalObservation
  isErr : Bool
  status : AtProviderStatus
  availableSet : Bool
  reconcileErrSet : Bool
deriving DecidableEq

/-- script.go lines 165-171: the exit status Observe extracts from an
ExecuteScript error - the carried status when the error is an ExitError,
and the constant 1 for every other error. -/
def observedExitStatus : ExecError → Nat
  | .runFailed (.exitError c) => c
  | _ => 1

/-- Observe (script.go lines 139-212): a deleting resource reports absent;
with a nonempty status check script the ExecuteScript error drives the
classification (status 1 fatal, status 100 absent, anything else exists but
not up to date, no error ready); with an empty script the resource is
reported existing and up to date with nothing executed. -/
def Observe (deleting : Bool) (statusCheckScript : String) (exec : ExecOut)
    (prior : AtProviderStatus) : ObserveOutcome :=
  if deleting then ⟨⟨false, false⟩, false, prior, false, false⟩
  else if statusCheckScript ≠ "" then
    match exec.err with
    | some e =>
      let exitStatus := observedExitStatus e
      let st : AtProviderStatus := ⟨exec.stdout, exec.stderr, exitStatus⟩
      if exitStatus = 1 then ⟨⟨false, false⟩, true, st, false, true⟩
      else if exitStatus = 100 then ⟨⟨false, false⟩, false, st, false, false⟩
      else ⟨⟨true, false⟩, false, st, false, false⟩
    | none => ⟨⟨true, true⟩, false, ⟨exec.stdout, exec.stderr, prior.statusCode⟩, true, false⟩
  else ⟨⟨true, true⟩, false, prior, false, false⟩

/-- The status check pipeline of Observe (script.go lines 155-157): run
ExecuteScript on the status check script and classify its outcome. -/
def observeStatusCheck (deleting : Bool) (script : String) (vars : List Variable)
    (env : ExecEnv) (prior : AtProviderStatus) : ObserveOutcome :=
  Observe deleting script (ExecuteScript script vars env) prior

/-- Equality of Except values is decidable when both components are. -/
instance {e a : Type} [DecidableEq e] [DecidableEq a] : DecidableEq (Except e a) := fun x y =>
  match x, y with
  | .error u, .error v =>
    if h : u = v then .isTrue (by rw [h]) else .isFalse (by intro he; cases he; exact h rfl)
  | .error _, .ok _ => .isFalse (by intro h; cases h)
  | .ok _, .error _ => .isFalse (by intro h; cases h)
  | .ok u, .ok v =>
    if h : u = v then .isTrue (by rw [h]) else .isFalse (by intro he; cases he; exact h rfl)

theorem rg_nil (pat rep : List Char) (hp : pat ≠ []) : replaceAllGo pat rep hp [] = [] := by
  simp [replaceAllGo]

theorem rg_cons (pat rep : List Char) (hp : pat ≠ []) (c : Char) (cs : List Char) :
    replaceAllGo pat rep hp (c :: cs) =
      if startsWithL pat (c :: cs) then
        rep ++ replaceAllGo pat rep hp ((c :: cs).drop pat.length)
      else
        c :: replaceAllGo pat rep hp cs := by
  rw [replaceAllGo]

theorem startsWithL_append_self : ∀ (p t : List Char), startsWithL p (p ++ t) = true
  | [], _ => rfl
  | c :: cs, t => by simp [startsWithL, startsWithL_append_self cs t]

theorem occursL_cons (pat : List Char) (c : Char) (cs : List Char) :
    occursL pat (c :: cs) = (startsWithL pat (c :: cs) || occursL pat cs) := rfl

/-- A subject in which the pattern never occurs is returned unchanged. -/
theorem replaceAllGo_fix (pat rep : List Char) (hp : pat ≠ []) :
    ∀ s : List Char, occursL pat s = false → replaceAllGo pat rep hp s = s := by
  intro s
  induction s with
  | nil => intro _; exact rg_nil pat rep hp
  | cons c cs ih =>
    intro h
    rw [occursL_cons, Bool.or_eq_false_iff] at h
    rw [rg_cons, h.1]
    simp [ih h.2]

/-- When no occurrence of the pattern begins inside the leading segment a,
the replacement rewrites the subject a ++ pat ++ b to a ++ rep followed by
the processed remainder: every occurrence is found and replaced left to
right. -/
theorem replaceAllGo_decomp (pat rep : List Char) (hp : pat ≠ []) :
    ∀ a b : List Char,
      (∀ i, i < a.length → startsWithL pat ((a ++ (pat ++ b)).drop i) = false) →
      replaceAllGo pat rep hp (a ++ (pat ++ b)) = a ++ (rep ++ replaceAllGo pat rep hp b) := by
  intro a
  induction a with
  | nil =>
    intro b _
    match pat, hp with
    | p :: ps, hp =>
      rw [List.nil_append, List.nil_append, List.cons_append, rg_cons]
      rw [← List.cons_append, startsWithL_append_self]
      simp only [if_true]
      congr 1
      congr 1
      rw [List.drop_left]
  | cons x a2 ih =>
    intro b h
    have h0 : startsWithL pat (x :: (a2 ++ (pat ++ b))) = false := by
      have := h 0 (by simp)
      simpa using this
    rw [List.cons_append, rg_cons, h0]
    simp only [Bool.false_eq_true, if_false, List.cons_append]
    congr 1
    exact ih b (fun i hi => by
      have := h (i + 1) (by simp; omega)
      simpa using this)

/-- A subject equal to the pattern is rewritten to the replacement. -/
theorem replaceAllGo_self (pat rep : List Char) (hp : pat ≠ []) :
    replaceAllGo pat rep hp pat = rep := by
  have := replaceAllGo_decomp pat rep hp [] [] (by intro i hi; simp at hi)
  simpa [rg_nil] using this

theorem strExt : ∀ {x y : String}, x.data = y.data → x = y
  | ⟨_⟩, ⟨_⟩, h => congrArg String.mk h

theorem ph_data (n : String) : (ph n).data = '\x7b' :: '\x7b' :: (n.data ++ ['\x7d', '\x7d']) := by
  cases n with
  | mk l => rfl

theorem ph_data_ne_nil (n : String) : (ph n).data ≠ [] := by
  rw [ph_data]; simp

theorem replaceAllS_eq (s pat rep : String) (hp : pat.data ≠ []) :
    replaceAllS s pat rep = ⟨replaceAllGo pat.data rep.data hp s.data⟩ := by
  unfold replaceAllS
  rw [dif_neg hp]

theorem replaceAllS_fix (s pat rep : String) (hp : pat.data ≠ [])
    (h : occursL pat.data s.data = false) : replaceAllS s pat rep = s := by
  rw [replaceAllS_eq s pat rep hp]
  exact strExt (replaceAllGo_fix pat.data rep.data hp s.data h)

theorem replaceAllS_self (pat rep : String) (hp : pat.data ≠ []) :
    replaceAllS pat pat rep = rep := by
  rw [replaceAllS_eq pat pat rep hp]
  exact strExt (replaceAllGo_self pat.data rep.data hp)

theorem ReplaceVariables_nil (s : String) : ReplaceVariables s [] = s := rfl

theorem ReplaceVariables_cons (s : String) (v : Variable) (vs : List Variable) :
    ReplaceVariables s (v :: vs) = ReplaceVariables (replaceAllS s (ph v.name) v.value) vs := rfl

/-- A script in which none of the placeholders of the variable list occur is
returned unchanged by ReplaceVariables. -/
theorem ReplaceVariables_fix (s : String) (vars : List Variable)
    (h : ∀ v ∈ vars, occursL (ph v.name).data s.data = false) :
    ReplaceVariables s vars = s := by
  induction vars with
  | nil => rfl
  | cons v vs ih =>
    rw [ReplaceVariables_cons,
      replaceAllS_fix s (ph v.name) v.value (ph_data_ne_nil v.name) (h v (by simp))]
    exact ih (fun w hw => h w (by simp [hw]))

/-- For a single variable, an occurrence of its placeholder after a segment
a in which no occurrence begins is replaced by the value, with the
remainder processed the same way. -/
theorem ReplaceVariables_single_decomp (a b : String) (v : Variable)
    (h : ∀ i, i < a.data.length →
      startsWithL (ph v.name).data ((a.data ++ ((ph v.name).data ++ b.data)).drop i) = false) :
    ReplaceVariables (a ++ ph v.name ++ b) [v]
      = a ++ v.value ++ replaceAllS b (ph v.name) v.value := by
  rw [ReplaceVariables_cons, ReplaceVariables_nil]
  rw [replaceAllS_eq _ _ _ (ph_data_ne_nil v.name)]
  rw [replaceAllS_eq _ _ _ (ph_data_ne_nil v.name)]
  apply strExt
  show replaceAllGo (ph v.name).data v.value.data (ph_data_ne_nil v.name) (a ++ ph v.name ++ b).data
      = (a ++ v.value ++ String.mk (replaceAllGo (ph v.name).data v.value.data (ph_data_ne_nil v.name) b.data)).data
  rw [String.data_append, String.data_append, String.data_append, String.data_append]
  rw [List.append_assoc]
  rw [replaceAllGo_decomp (ph v.name).data v.value.data (ph_data_ne_nil v.name) a.data b.data h]
  rw [List.append_assoc]

/-- Claim C3: ReplaceVariables replaces every occurrence of a placeholder of
a listed variable by its value (stated through the left-to-right
decomposition: an occurrence after a segment in which no occurrence begins
becomes the value, the remainder being processed the same way), leaves a
script free of the listed placeholders unchanged (so unmatched placeholders
are left verbatim, with no error), and is idempotent on any script without
placeholders for the listed names. -/
theorem spec_c3 :
    (∀ (a b : String) (v : Variable),
      (∀ i, i < a.data.length →
        startsWithL (ph v.name).data ((a.data ++ ((ph v.name).data ++ b.data)).drop i) = false) →
      ReplaceVariables (a ++ ph v.name ++ b) [v]
        = a ++ v.value ++ replaceAllS b (ph v.name) v.value)
  ∧ (∀ (s : String) (vars : List Variable),
      (∀ v ∈ vars, occursL (ph v.name).data s.data = false) →
      ReplaceVariables s vars = s)
  ∧ (∀ (s : String) (vars : List Variable),
      (∀ v ∈ vars, occursL (ph v.name).data s.data = false) →
      ReplaceVariables (ReplaceVariables s vars) vars = ReplaceVariables s vars) := by
  refine ⟨ReplaceVariables_single_decomp, ReplaceVariables_fix, ?_⟩
  intro s vars h
  rw [ReplaceVariables_fix s vars h, ReplaceVariables_fix s vars h]

/-- Claim C3 witness: the decomposition instantiated on a concrete script
with one variable A bound to x. -/
theorem spec_c3_witness :
    ReplaceVariables ("echo " ++ ph "A" ++ " b") [⟨"A", "x"⟩]
      = "echo " ++ "x" ++ replaceAllS " b" (ph "A") "x" :=
  spec_c3.1 "echo " " b" ⟨"A", "x"⟩ (by decide)

/-- Claim C4 counterexample: with the variable list A bound to the
placeholder of B followed by B bound to x, the value substituted for A is
re-scanned by the later pass for B, so the embedded placeholder does not
remain verbatim as the claim states: the output is x, not the placeholder
of B. -/
theorem spec_c4_counterexample :
    ReplaceVariables (ph "A") [⟨"A", ph "B"⟩, ⟨"B", "x"⟩] = "x"
  ∧ ReplaceVariables (ph "A") [⟨"A", ph "B"⟩, ⟨"B", "x"⟩] ≠ ph "B" := by
  have h1 : ReplaceVariables (ph "A") [⟨"A", ph "B"⟩, ⟨"B", "x"⟩] = "x" := by
    simp only [ReplaceVariables_cons, ReplaceVariables_nil]
    rw [replaceAllS_self (ph "A") (ph "B") (ph_data_ne_nil "A"),
      replaceAllS_self (ph "B") "x" (ph_data_ne_nil "B")]
  exact ⟨h1, by rw [h1]; decide⟩

/-- Claim C4 amended: substitution is sequential over the variable list, one
variable at a time in list order, rather than single-pass: a value
substituted for one placeholder IS re-scanned by the substitutions of
variables later in the list, so an embedded placeholder naming a
later-listed variable is replaced; an embedded placeholder naming an
earlier-listed variable, whose pass has already run, remains verbatim. -/
theorem spec_c4_amended (nA nB vA vB : String)
    (h1 : occursL (ph nA).data (ph nB).data = false) :
    ReplaceVariables (ph nA) [⟨nA, ph nB⟩, ⟨nB, vB⟩] = vB
  ∧ ReplaceVariables (ph nB) [⟨nA, vA⟩, ⟨nB, ph nA⟩] = ph nA := by
  constructor
  · simp only [ReplaceVariables_cons, ReplaceVariables_nil]
    rw [replaceAllS_self (ph nA) (ph nB) (ph_data_ne_nil nA),
      replaceAllS_self (ph nB) vB (ph_data_ne_nil nB)]
  · simp only [ReplaceVariables_cons, ReplaceVariables_nil]
    rw [replaceAllS_fix (ph nB) (ph nA) vA (ph_data_ne_nil nA) h1,
      replaceAllS_self (ph nB) (ph nA) (ph_data_ne_nil nB)]

/-- Claim C4 amended witness: both directions at the concrete names A and
B. -/
theorem spec_c4_amended_witness :
    ReplaceVariables (ph "A") [⟨"A", ph "B"⟩, ⟨"B", "val"⟩] = "val"
  ∧ ReplaceVariables (ph "B") [⟨"A", "val"⟩, ⟨"B", ph "A"⟩] = ph "A" :=
  spec_c4_amended "A" "B" "val" "val" (by decide)

/-- Claim C1 counterexample: an execution-level failure with no exit status
(session.Run returning an error that is not an ExitError) is not kept
distinct from script exit codes as the claim states: Observe records exit
status 1 for it, returns an error, and produces exactly the outcome of the
exit-status-1 fatal path. -/
theorem spec_c1_counterexample :
    (observeStatusCheck false "check" []
        ⟨true, true, "out", "err", some .execFailure, true⟩ ⟨"", "", 0⟩).status.statusCode = 1
  ∧ observeStatusCheck false "check" []
        ⟨true, true, "out", "err", some .execFailure, true⟩ ⟨"", "", 0⟩
      = observeStatusCheck false "check" []
        ⟨true, true, "out", "err", some (.exitError 1), true⟩ ⟨"", "", 0⟩
  ∧ (observeStatusCheck false "check" []
        ⟨true, true, "out", "err", some .execFailure, true⟩ ⟨"", "", 0⟩).isErr = true := by
  decide

/-- Claim C1 amended: for a nonempty status check script on a resource that
is not being deleted, the classification is total over the run outcomes:
exit status 0 reports the resource ready (exists and up to date, Available
set), exit status 1 returns an error (fatal, update never runs), exit
status 100 reports the resource absent, any other exit status reports it
existing but not up to date; an execution-level failure with no exit status
is folded into exit status 1 and handled by the same fatal path instead of
being kept distinct. -/
theorem spec_c1_amended (script : String) (hs : script ≠ "")
    (vars : List Variable) (so se : String) (co : Bool)
    (prior : AtProviderStatus) (code : Nat) :
    ((code = 0 → observeStatusCheck false script vars ⟨true, true, so, se, runErrOfExit code, co⟩ prior
        = ⟨⟨true, true⟩, false, ⟨so, se, prior.statusCode⟩, true, false⟩)
    ∧ (code = 1 → observeStatusCheck false script vars ⟨true, true, so, se, runErrOfExit code, co⟩ prior
        = ⟨⟨false, false⟩, true, ⟨"", se, 1⟩, false, true⟩)
    ∧ (code = 100 → observeStatusCheck false script vars ⟨true, true, so, se, runErrOfExit code, co⟩ prior
        = ⟨⟨false, false⟩, false, ⟨"", se, 100⟩, false, false⟩)
    ∧ (code ≠ 0 → code ≠ 1 → code ≠ 100 →
        observeStatusCheck false script vars ⟨true, true, so, se, runErrOfExit code, co⟩ prior
        = ⟨⟨true, false⟩, false, ⟨"", se, code⟩, false, false⟩)
    ∧ observeStatusCheck false script vars ⟨true, true, so, se, some .execFailure, co⟩ prior
        = observeStatusCheck false script vars ⟨true, true, so, se, some (.exitError 1), co⟩ prior) := by
  refine ⟨?_, ?_, ?_, ?_, ?_⟩
  · intro h; subst h
    simp [observeStatusCheck, ExecuteScript, Observe, runErrOfExit, hs]
  · intro h; subst h
    simp [observeStatusCheck, ExecuteScript, Observe, runErrOfExit, observedExitStatus, hs]
  · intro h; subst h
    simp [observeStatusCheck, ExecuteScript, Observe, runErrOfExit, observedExitStatus, hs]
  · intro h0 h1 h100
    simp [observeStatusCheck, ExecuteScript, Observe, runErrOfExit, observedExitStatus, hs, h0, h1, h100]
  · simp [observeStatusCheck, ExecuteScript, Observe, observedExitStatus, hs]

/-- Claim C1 amended witness: exit status 7 on a concrete resource reports
existing but not up to date. -/
theorem spec_c1_witness :
    observeStatusCheck false "check" [] ⟨true, true, "o", "e", runErrOfExit 7, true⟩ ⟨"", "", 0⟩
      = ⟨⟨true, false⟩, false, ⟨"", "e", 7⟩, false, false⟩ :=
  (spec_c1_amended "check" (by decide) [] "o" "e" true ⟨"", "", 0⟩ 7).2.2.2.1
    (by decide) (by decide) (by decide)

/-- Claim C2 counterexample: the remote process ran and terminated with exit
status 2 (session.Run returned an ExitError), yet ExecuteScript returns
early without attempting removal of the staged temporary file, contrary to
the claim that cleanup happens for every terminated run; cleanup only
happens on the zero-exit path (ssh.go lines 237-245). -/
theorem spec_c2_counterexample :
    (ExecuteScript "s" [] ⟨true, true, "o", "e", some (.exitError 2), true⟩).cleanupAttempted = false
  ∧ (ExecuteScript "s" [] ⟨true, true, "o", "e", some (.exitError 2), true⟩).err
      = some (.runFailed (.exitError 2)) := by
  decide

/-- Claim C2 amended: the staged temporary file removal is attempted only
when the remote process terminates with exit status zero after a successful
upload and session creation; it is skipped on every nonzero exit and on
every execution-level failure, and when it is attempted its own failure
never changes the returned result. -/
theorem spec_c2_amended (sc : String) (vars : List Variable) (so se : String) (co co2 : Bool) :
    (ExecuteScript sc vars ⟨true, true, so, se, none, co⟩).cleanupAttempted = true
  ∧ (ExecuteScript sc vars ⟨true, true, so, se, none, co⟩).err = none
  ∧ (∀ e : RunError,
      (ExecuteScript sc vars ⟨true, true, so, se, some e, co⟩).cleanupAttempted = false)
  ∧ (∀ (ns : Bool) (re : Option RunError),
      (ExecuteScript sc vars ⟨false, ns, so, se, re, co⟩).cleanupAttempted = false)
  ∧ (∀ re : Option RunError,
      (ExecuteScript sc vars ⟨true, false, so, se, re, co⟩).cleanupAttempted = false)
  ∧ (∀ (sf ns : Bool) (re : Option RunError),
      ExecuteScript sc vars ⟨sf, ns, so, se, re, co⟩ = ExecuteScript sc vars ⟨sf, ns, so, se, re, co2⟩) := by
  refine ⟨by simp [ExecuteScript], by simp [ExecuteScript], ?_, ?_, ?_, ?_⟩
  · intro e; simp [ExecuteScript]
  · intro ns re; simp [ExecuteScript]
  · intro re; simp [ExecuteScript]
  · intro sf ns re
    cases sf <;> cases ns <;> cases re <;> simp [ExecuteScript]

/-- Claim C7 counterexample: the remote process ran, wrote hello to stdout
and boom to stderr, and terminated with exit status 2; ExecuteScript
returns the empty string for stdout, discarding the captured output instead
of returning it as the claim states (ssh.go line 238). -/
theorem spec_c7_counterexample :
    ExecuteScript "s" [] ⟨true, true, "hello", "boom", some (.exitError 2), true⟩
      = ⟨"", "boom", some (.runFailed (.exitError 2)), false, "s"⟩ := by
  decide

/-- Claim C7 amended: when the remote process terminates with exit status
zero, ExecuteScript returns both captured streams with no error; when it
terminates with a nonzero status, the captured stderr and the exit error
are returned but the captured stdout is discarded and the empty string is
returned in its place. -/
theorem spec_c7_amended (sc : String) (vars : List Variable) (so se : String) (co : Bool) :
    (ExecuteScript sc vars ⟨true, true, so, se, none, co⟩).stdout = so
  ∧ (ExecuteScript sc vars ⟨true, true, so, se, none, co⟩).stderr = se
  ∧ (ExecuteScript sc vars ⟨true, true, so, se, none, co⟩).err = none
  ∧ (∀ e : RunError,
      (ExecuteScript sc vars ⟨true, true, so, se, some e, co⟩).stdout = ""
    ∧ (ExecuteScript sc vars ⟨true, true, so, se, some e, co⟩).stderr = se
    ∧ (ExecuteScript sc vars ⟨true, true, so, se, some e, co⟩).err = some (.runFailed e)) := by
  refine ⟨by simp [ExecuteScript], by simp [ExecuteScript], by simp [ExecuteScript], ?_⟩
  intro e
  exact ⟨by simp [ExecuteScript], by simp [ExecuteScript], by simp [ExecuteScript]⟩

/-- Claim C8: with an empty status check script on a resource that is not
being deleted, Observe reports the resource existing and up to date, leaves
the status untouched, and its outcome is the same whatever the remote
execution environment would have done, so no remote command is needed. -/
theorem spec_c8 (vars vars2 : List Variable) (env env2 : ExecEnv) (prior : AtProviderStatus) :
    observeStatusCheck false "" vars env prior = ⟨⟨true, true⟩, false, prior, false, false⟩
  ∧ observeStatusCheck false "" vars env prior = observeStatusCheck false "" vars2 env2 prior := by
  constructor
  · simp [observeStatusCheck, Observe]
  · simp [observeStatusCheck, Observe]

/-- Claim C5: for a payload that passes validation, the dial loop returns
the connection of the first successful attempt (in particular two failures
followed by a success yield the client with no error), returns the error of
the third attempt after three failures, and consults no attempt beyond the
third: the result depends only on attempts 1, 2 and 3. -/
theorem spec_c5 (kc : SSHConfig) (khOk b64Ok parseOk : Bool) (cfg : ClientConfig)
    (hsetup : newSSHClientSetup kc khOk b64Ok parseOk = .ok cfg)
    (dial dial2 : Nat → DialOutcome) (e1 e2 e3 c : Nat) :
    (dial 1 = .conn c → NewSSHClient kc khOk b64Ok parseOk dial = .client c cfg)
  ∧ (dial 1 = .failed e1 → dial 2 = .conn c →
      NewSSHClient kc khOk b64Ok parseOk dial = .client c cfg)
  ∧ (dial 1 = .failed e1 → dial 2 = .failed e2 → dial 3 = .conn c →
      NewSSHClient kc khOk b64Ok parseOk dial = .client c cfg)
  ∧ (dial 1 = .failed e1 → dial 2 = .failed e2 → dial 3 = .failed e3 →
      NewSSHClient kc khOk b64Ok parseOk dial = .dialError e3)
  ∧ (dial 1 = dial2 1 → dial 2 = dial2 2 → dial 3 = dial2 3 →
      NewSSHClient kc khOk b64Ok parseOk dial = NewSSHClient kc khOk b64Ok parseOk dial2) := by
  refine ⟨?_, ?_, ?_, ?_, ?_⟩
  · intro h1; simp [NewSSHClient, hsetup, dialUpToThree, h1]
  · intro h1 h2; simp [NewSSHClient, hsetup, dialUpToThree, h1, h2]
  · intro h1 h2 h3; simp [NewSSHClient, hsetup, dialUpToThree, h1, h2, h3]
  · intro h1 h2 h3; simp [NewSSHClient, hsetup, dialUpToThree, h1, h2, h3]
  · intro h1 h2 h3; simp [NewSSHClient, hsetup, dialUpToThree, h1, h2, h3]

/-- Claim C5 witness: two failed attempts followed by a successful third one
yield the client with no error surfaced. -/
theorem spec_c5_witness :
    NewSSHClient ⟨"1.2.3.4", "22", "u", "", "key", ""⟩ true true true
      (fun n => if n = 3 then .conn 9 else .failed n)
      = .client 9 ⟨"u", .publicKeys, true, "22"⟩ :=
  (spec_c5 ⟨"1.2.3.4", "22", "u", "", "key", ""⟩ true true true
      ⟨"u", .publicKeys, true, "22"⟩ (by decide)
      (fun n => if n = 3 then .conn 9 else .failed n)
      (fun n => if n = 3 then .conn 9 else .failed n) 1 2 0 9).2.2.1
    (by decide) (by decide) (by decide)

/-- Claim C6 counterexample: a payload carrying BOTH a password and private
key material is not rejected as the claim states: NewSSHClient proceeds to
dial and returns the connected client, the private key branch winning. -/
theorem spec_c6_counterexample :
    NewSSHClient ⟨"1.2.3.4", "22", "u", "pw", "key", ""⟩ true true true (fun _ => .conn 7)
      = .client 7 ⟨"u", .publicKeys, true, "22"⟩ := by
  decide

/-- Claim C6 amended: with a valid username and host, NewSSHClient returns a
configuration error without consulting the dial function only when NEITHER
a password nor private key material is present; it proceeds to the dial
whenever at least one of the two is supplied, including when both are. -/
theorem spec_c6_amended (kc : SSHConfig) (khOk b64Ok parseOk : Bool)
    (hu : kc.username ≠ "") (hh : kc.hostIP ≠ "") (hv : isValidIPv4 kc.hostIP = true)
    (hkh : kc.knownHosts = "" ∨ khOk = true) :
    (kc.privateKey = "" → kc.password = "" →
      ∀ dial : Nat → DialOutcome, NewSSHClient kc khOk b64Ok parseOk dial = .configError .noAuth)
  ∧ (kc.privateKey ≠ "" ∨ kc.password ≠ "" →
      ∃ cfg : ClientConfig, newSSHClientSetup kc khOk b64Ok parseOk = .ok cfg) := by
  have hcond : ¬(kc.knownHosts ≠ "" ∧ khOk = false) := by
    rcases hkh with hk | hk
    · simp [hk]
    · simp [hk]
  constructor
  · intro hpk hpw dial
    simp [NewSSHClient, newSSHClientSetup, hu, hh, hv, hcond, hpk, hpw]
  · intro h
    by_cases hpk : kc.privateKey = ""
    · have hpw : kc.password ≠ "" := by
        rcases h with h | h
        · exact absurd hpk h
        · exact h
      exact ⟨⟨kc.username, .password kc.password, decide (kc.knownHosts = ""),
          if kc.hostPort = "" then "22" else kc.hostPort⟩,
        by simp [newSSHClientSetup, hu, hh, hv, hcond, hpk, hpw]⟩
    · exact ⟨⟨kc.username, .publicKeys, decide (kc.knownHosts = ""),
          if kc.hostPort = "" then "22" else kc.hostPort⟩,
        by simp [newSSHClientSetup, hu, hh, hv, hcond, hpk]⟩

/-- Claim C6 amended witness: a payload with neither authentication method
is rejected before any dial. -/
theorem spec_c6_amended_witness :
    NewSSHClient ⟨"1.2.3.4", "22", "u", "", "", ""⟩ true true true (fun _ => .conn 7)
      = .configError .noAuth :=
  (spec_c6_amended ⟨"1.2.3.4", "22", "u", "", "", ""⟩ true true true
      (by decide) (by decide) (by decide) (Or.inl rfl)).1 rfl rfl (fun _ => .conn 7)

/-- Claim C9: when private key material is present the configuration uses
public key authentication and carries no password data, and the result is
unchanged under any change of the password field; password authentication
is configured exactly when the privateKey field is empty and the password
field is not. -/
theorem spec_c9 (kc : SSHConfig) (khOk b64Ok parseOk : Bool) (p2 : String)
    (hu : kc.username ≠ "") (hh : kc.hostIP ≠ "") (hv : isValidIPv4 kc.hostIP = true)
    (hkh : kc.knownHosts = "" ∨ khOk = true) :
    (kc.privateKey ≠ "" →
      newSSHClientSetup kc khOk b64Ok parseOk
        = .ok ⟨kc.username, .publicKeys, decide (kc.knownHosts = ""),
            if kc.hostPort = "" then "22" else kc.hostPort⟩)
  ∧ (kc.privateKey ≠ "" →
      newSSHClientSetup kc khOk b64Ok parseOk
        = newSSHClientSetup ⟨kc.hostIP, kc.hostPort, kc.username, p2, kc.privateKey, kc.knownHosts⟩
            khOk b64Ok parseOk)
  ∧ (kc.privateKey = "" → kc.password ≠ "" →
      newSSHClientSetup kc khOk b64Ok parseOk
        = .ok ⟨kc.username, .password kc.password, decide (kc.knownHosts = ""),
            if kc.hostPort = "" then "22" else kc.hostPort⟩) := by
  have hcond : ¬(kc.knownHosts ≠ "" ∧ khOk = false) := by
    rcases hkh with hk | hk
    · simp [hk]
    · simp [hk]
  refine ⟨?_, ?_, ?_⟩
  · intro hpk; simp [newSSHClientSetup, hu, hh, hv, hcond, hpk]
  · intro hpk; simp [newSSHClientSetup, hu, hh, hv, hcond, hpk]
  · intro hpk hpw; simp [newSSHClientSetup, hu, hh, hv, hcond, hpk, hpw]

/-- Claim C9 witness: with both a password and a private key present, the
configuration chosen is public key authentication. -/
theorem spec_c9_witness :
    newSSHClientSetup ⟨"1.2.3.4", "22", "u", "pw", "key", ""⟩ true true true
      = .ok ⟨"u", .publicKeys, true, "22"⟩ :=
  (spec_c9 ⟨"1.2.3.4", "22", "u", "pw", "key", ""⟩ true true true "other"
      (by decide) (by decide) (by decide) (Or.inl rfl)).1 (by decide)

/-- Claim C10: a nonempty private key that fails base64 decoding or private
key parsing produces no configuration error: those two failures are only
logged (ssh.go lines 78-86), the setup result does not depend on them, and
NewSSHClient proceeds into the dial loop and can return a client. -/
theorem spec_c10 (kc : SSHConfig) (khOk b64a pka b64b pkb : Bool)
    (dial : Nat → DialOutcome) (c : Nat)
    (hu : kc.username ≠ "") (hh : kc.hostIP ≠ "") (hv : isValidIPv4 kc.hostIP = true)
    (hkh : kc.knownHosts = "" ∨ khOk = true) (hpk : kc.privateKey ≠ "") :
    newSSHClientSetup kc khOk b64a pka = newSSHClientSetup kc khOk b64b pkb
  ∧ (dial 1 = .conn c → NewSSHClient kc khOk b64a pka dial
      = .client c ⟨kc.username, .publicKeys, decide (kc.knownHosts = ""),
          if kc.hostPort = "" then "22" else kc.hostPort⟩) := by
  have hcond : ¬(kc.knownHosts ≠ "" ∧ khOk = false) := by
    rcases hkh with hk | hk
    · simp [hk]
    · simp [hk]
  constructor
  · rfl
  · intro h1
    simp [NewSSHClient, newSSHClientSetup, hu, hh, hv, hcond, hpk, dialUpToThree, h1]

/-- Claim C10 witness: a private key that neither decodes nor parses still
leads into the dial and to a connected client. -/
theorem spec_c10_witness :
    NewSSHClient ⟨"1.2.3.4", "22", "u", "", "notbase64", ""⟩ true false false (fun _ => .conn 5)
      = .client 5 ⟨"u", .publicKeys, true, "22"⟩ :=
  (spec_c10 ⟨"1.2.3.4", "22", "u", "", "notbase64", ""⟩ true false false true true
      (fun _ => .conn 5) 5 (by decide) (by decide) (by decide) (Or.inl rfl) (by decide)).2 rfl
